import Mathlib

/-!
Shallow embedding of the playback controller core of the `reyvr` repository
(`src/crates/backend/src/player.rs`), together with theorems settling the
behavioural claims about it.

Modelling conventions:
* `f64` volume values are only ever stored and passed to the backend (no
  arithmetic is performed on them), so they are modelled as rationals.
* `u64`/`usize` are modelled as `Nat`; the code never subtracts below zero
  (`current_index -= 1` is guarded by `current_index > 0`) and never wraps.
* The `Arc<Mutex<Playlist>>` is modelled by its value: the core clones the
  playlist out of the lock, works on the clone and swaps a fresh `Arc` back
  in, so lock/clone round-trips are value-preserving.
* The backend trait object is modelled by a `BackendEnv` oracle giving the
  result of each backend method (`none` = `Ok(())`, `some msg` = `Err(msg)`);
  each backend method is called at most once per command, so one oracle per
  step is faithful.
* Rust panics (`.expect(..)`, out-of-bounds indexing) are modelled by the
  `StepResult.panicked` outcome, which aborts the event loop.
* The response channel `tx` is modelled by the list of responses emitted by
  a step, in emission order; `tx.send(..).expect(..)` never fails unless the
  receiver is dropped, which is modelled as always succeeding.
* Backend calls performed by a step are recorded in order in a `BCall` trace.
-/

namespace Reyvr

/-- A track: playback identity (URI) plus display metadata. -/
structure Track where
  uri : String
  title : String
  deriving DecidableEq, Repr

/-- Modelled from the spec: the `Playlist` struct lives in the `playback`
module, which is not among the available sources; the core only reads its
`tracks` field (an ordered sequence of `Track`). -/
structure Playlist where
  tracks : List Track
  deriving DecidableEq, Repr

/-- A saved playlist. Modelled from the spec: "a named, persisted list of
saved playlists (each itself an ordered list of track identities)". -/
structure SavedPlaylist where
  name : String
  uris : List String
  deriving DecidableEq, Repr

/-- The persisted collection of saved playlists; the core pushes onto its
`playlists` field. -/
structure SavedPlaylists where
  playlists : List SavedPlaylist
  deriving DecidableEq, Repr

/-- The gstreamer playback states that the core emits. -/
inductive State where
  | Playing
  | Paused
  | Stopped
  deriving DecidableEq, Repr

/-- The thumbnail payload (decoded image frames abstracted to raw data). -/
structure Thumbnail where
  img : List Nat
  width : Nat
  height : Nat
  deriving DecidableEq, Repr

/-- The inbound command vocabulary of `player.rs`. -/
inductive Command where
  | Play
  | Pause
  | Volume (vol : ℚ)
  | GetMeta
  | GetTracks
  | Next
  | Previous
  | Seek (time : Nat)
  | PlayId (id : Nat)
  | LoadFromFolder (path : String)
  | LoadFolder
  | LoadSavedPlaylists
  | WriteSavedPlaylists
  | AddSavedPlaylist (pl : SavedPlaylist)
  deriving DecidableEq, Repr

/-- The outbound response vocabulary of `player.rs`. -/
inductive Response where
  | Error (msg : String)
  | Warning (msg : String)
  | Info (msg : String)
  | Metadata (t : Track)
  | StateChanged (s : State)
  | Eos
  | StreamStart
  | Position (pos : Nat)
  | Thumbnail (t : Thumbnail)
  | Tracks (ts : List Track)
  | SavedPlaylists (sp : SavedPlaylists)
  deriving DecidableEq, Repr

/-- The mutable state of the `Player` struct (channel endpoints and the
backend handle are modelled by the step function's inputs and outputs). -/
structure Player where
  playlist : Playlist
  volume : ℚ
  position : Nat
  current_index : Nat
  loaded : Bool
  playing : Bool
  saved_playlists : SavedPlaylists
  deriving DecidableEq, Repr

/-- A backend call, as recorded in the trace of one step. -/
inductive BCall where
  | load (uri : String)
  | play
  | pause
  | stop
  | seek (time : Nat)
  | set_volume (vol : ℚ)
  deriving DecidableEq, Repr

/-- Oracle for the externally-determined results of one event-loop
iteration: each fallible backend method yields `none` (success) or
`some msg` (failure), plus directory enumeration, the folder picker and
the saved-playlist store. -/
structure BackendEnv where
  loadRes : String → Option String
  playRes : Option String
  pauseRes : Option String
  stopRes : Option String
  seekRes : Option String
  setVolumeRes : Option String
  fromDir : String → List Track
  pickFolder : Option String
  savedLoad : SavedPlaylists
  saveRes : Option String
  monitor : Option Response
  getPosition : Nat

/-- Outcome of the fallible load inside a navigation helper. -/
inductive LoadOutcome where
  | ok
  | err (msg : String)
  | panicked (msg : String)
  deriving DecidableEq, Repr

/-- Result of `play_next` / `play_previous` / `play_id`: the player state as
left by the helper (also on failure), the backend calls made, and the
outcome. -/
structure NavResult where
  player : Player
  calls : List BCall
  outcome : LoadOutcome
  deriving DecidableEq, Repr

/-- Modelled from the spec: `Playlist::load` (in the missing `playback`
module) hands the track at `index` to the backend ("load new track" /
"load its first track (index 0)"), i.e. calls `backend.load` on that
track's URI; returns the backend calls made and the failure, if any. -/
def Playlist.load (env : BackendEnv) (pl : Playlist) (i : Nat) :
    List BCall × Option String :=
  match pl.tracks.get? i with
  | some t => ([BCall.load t.uri], env.loadRes t.uri)
  | none => ([], some "Playlist.load: no track at index")

/-- `Player::new`: initial state (volume 0.5, nothing loaded or playing). -/
def Player.new (playlist : Playlist) : Player :=
  { playlist := playlist
    volume := (1 : ℚ) / 2
    position := 0
    current_index := 0
    loaded := false
    playing := false
    saved_playlists := { playlists := [] } }

/-- `Player::set_playing`: toggles the `playing` flag. -/
def Player.set_playing (p : Player) : Player :=
  { p with playing := !p.playing }

/-- `Player::play_next`: if `current_index + 1 < tracks.len()`, increment
`current_index`, then load the track at the new index from a clone of the
playlist and swap the clone back in; on load failure the incremented
`current_index` is kept (the `?` returns early). Otherwise a no-op. -/
def Player.play_next (p : Player) (env : BackendEnv) : NavResult :=
  let tracks_len := p.playlist.tracks.length
  if p.current_index + 1 < tracks_len then
    let p1 := { p with current_index := p.current_index + 1 }
    let r := Playlist.load env p1.playlist p1.current_index
    match r.2 with
    | none => { player := p1, calls := r.1, outcome := LoadOutcome.ok }
    | some e => { player := p1, calls := r.1, outcome := LoadOutcome.err e }
  else
    { player := p, calls := [], outcome := LoadOutcome.ok }

/-- `Player::play_previous`: symmetric to `play_next`, decrementing only
when `current_index > 0`; the decrement likewise precedes the fallible
load. -/
def Player.play_previous (p : Player) (env : BackendEnv) : NavResult :=
  if p.current_index > 0 then
    let p1 := { p with current_index := p.current_index - 1 }
    let r := Playlist.load env p1.playlist p1.current_index
    match r.2 with
    | none => { player := p1, calls := r.1, outcome := LoadOutcome.ok }
    | some e => { player := p1, calls := r.1, outcome := LoadOutcome.err e }
  else
    { player := p, calls := [], outcome := LoadOutcome.ok }

/-- `Player::play_id`: sets `current_index := id`, then reads
`tracks[id].uri` (a panicking index) and calls `backend.load` on it. -/
def Player.play_id (p : Player) (env : BackendEnv) (id : Nat) : NavResult :=
  let p1 := { p with current_index := id }
  match p1.playlist.tracks.get? id with
  | none =>
    { player := p1, calls := [], outcome := LoadOutcome.panicked "index out of bounds" }
  | some t =>
    match env.loadRes t.uri with
    | none => { player := p1, calls := [BCall.load t.uri], outcome := LoadOutcome.ok }
    | some e => { player := p1, calls := [BCall.load t.uri], outcome := LoadOutcome.err e }

/-- Result of processing one drained command in `Player::run`: either the
next player state with the responses emitted and backend calls made, or a
panic (an `.expect` firing or an out-of-bounds index), which aborts the
event loop; the panic case keeps the responses and calls made before the
panic. -/
inductive StepResult where
  | ok (player : Player) (out : List Response) (calls : List BCall)
  | panicked (msg : String) (out : List Response) (calls : List BCall)
  deriving DecidableEq, Repr

/-- Responses emitted during the step (also before a panic). -/
def StepResult.out : StepResult → List Response
  | StepResult.ok _ o _ => o
  | StepResult.panicked _ o _ => o

/-- Backend calls made during the step (also before a panic). -/
def StepResult.calls : StepResult → List BCall
  | StepResult.ok _ _ c => c
  | StepResult.panicked _ _ c => c

/-- Whether the step panicked (terminating the event loop). -/
def StepResult.isPanic : StepResult → Bool
  | StepResult.ok _ _ _ => false
  | StepResult.panicked _ _ _ => true

/-- The body of the command `match` in `Player::run`, for one drained
command. Mirrors `player.rs` arm by arm, including which failures are
mapped to `Response::Error` (Play, Pause) and which are `.expect`ed
(Volume, Next, Previous, PlayId, LoadFromFolder, LoadFolder,
WriteSavedPlaylists, Seek). -/
def Player.step (p : Player) (env : BackendEnv) : Command → StepResult
  | Command.Play =>
    if !p.playlist.tracks.isEmpty then
      if !p.playing then
        if p.loaded then
          let out := match env.playRes with
            | none => [Response.StateChanged State.Playing]
            | some e => [Response.StateChanged State.Playing, Response.Error e]
          StepResult.ok { p with playing := true } out [BCall.play]
        else
          StepResult.ok p [Response.Error "Playlist is not loaded."] []
      else
        StepResult.ok p [] []
    else
      StepResult.ok p [] []
  | Command.Pause =>
    if p.playing then
      let out := match env.pauseRes with
        | none => [Response.StateChanged State.Paused]
        | some e => [Response.StateChanged State.Paused, Response.Error e]
      StepResult.ok { p with playing := false } out [BCall.pause]
    else
      StepResult.ok p [] []
  | Command.GetMeta =>
    if p.loaded then
      match p.playlist.tracks.get? p.current_index with
      | some t => StepResult.ok p [Response.Metadata t] []
      | none => StepResult.panicked "index out of bounds" [] []
    else
      StepResult.ok p [] []
  | Command.GetTracks =>
    if p.loaded then
      StepResult.ok p [Response.Tracks p.playlist.tracks] []
    else
      StepResult.ok p [] []
  | Command.Volume vol =>
    if p.loaded then
      let out := [Response.Info ("Volume set to " ++ toString vol)]
      match env.setVolumeRes with
      | some _ => StepResult.panicked "Could not set volume" out [BCall.set_volume vol]
      | none => StepResult.ok { p with volume := vol } out [BCall.set_volume vol]
    else
      StepResult.ok p [] []
  | Command.Next =>
    if p.loaded then
      match env.stopRes with
      | some _ => StepResult.panicked "Could not stop" [] [BCall.stop]
      | none =>
        let r := p.play_next env
        match r.outcome with
        | LoadOutcome.err _ =>
          StepResult.panicked "Could not play next." [] (BCall.stop :: r.calls)
        | LoadOutcome.panicked m =>
          StepResult.panicked m [] (BCall.stop :: r.calls)
        | LoadOutcome.ok =>
          let out := [Response.StateChanged State.Playing]
          match env.playRes with
          | some _ =>
            StepResult.panicked "Could not play" out (BCall.stop :: r.calls ++ [BCall.play])
          | none =>
            match env.setVolumeRes with
            | some _ =>
              StepResult.panicked "Could not set volume" out
                (BCall.stop :: r.calls ++ [BCall.play, BCall.set_volume r.player.volume])
            | none =>
              StepResult.ok { r.player with playing := true } out
                (BCall.stop :: r.calls ++ [BCall.play, BCall.set_volume r.player.volume])
    else
      StepResult.ok p [] []
  | Command.Previous =>
    if p.loaded then
      match env.stopRes with
      | some _ => StepResult.panicked "Could not stop" [] [BCall.stop]
      | none =>
        let r := p.play_previous env
        match r.outcome with
        | LoadOutcome.err _ =>
          StepResult.panicked "Could not play previous." [] (BCall.stop :: r.calls)
        | LoadOutcome.panicked m =>
          StepResult.panicked m [] (BCall.stop :: r.calls)
        | LoadOutcome.ok =>
          let out := [Response.StateChanged State.Playing]
          match env.playRes with
          | some _ =>
            StepResult.panicked "Could not play" out (BCall.stop :: r.calls ++ [BCall.play])
          | none =>
            match env.setVolumeRes with
            | some _ =>
              StepResult.panicked "Could not set volume" out
                (BCall.stop :: r.calls ++ [BCall.play, BCall.set_volume r.player.volume])
            | none =>
              StepResult.ok { r.player with playing := true } out
                (BCall.stop :: r.calls ++ [BCall.play, BCall.set_volume r.player.volume])
    else
      StepResult.ok p [] []
  | Command.PlayId id =>
    if p.loaded then
      match env.stopRes with
      | some _ => StepResult.panicked "Could not stop" [] [BCall.stop]
      | none =>
        let r := p.play_id env id
        match r.outcome with
        | LoadOutcome.err _ =>
          StepResult.panicked "Could not play track" [] (BCall.stop :: r.calls)
        | LoadOutcome.panicked m =>
          StepResult.panicked m [] (BCall.stop :: r.calls)
        | LoadOutcome.ok =>
          let out := [Response.StateChanged State.Playing]
          match env.playRes with
          | some _ =>
            StepResult.panicked "Could not play" out (BCall.stop :: r.calls ++ [BCall.play])
          | none =>
            match env.setVolumeRes with
            | some _ =>
              StepResult.panicked "Could not set volume" out
                (BCall.stop :: r.calls ++ [BCall.play, BCall.set_volume r.player.volume])
            | none =>
              StepResult.ok { r.player with playing := true } out
                (BCall.stop :: r.calls ++ [BCall.play, BCall.set_volume r.player.volume])
    else
      StepResult.ok p [] []
  | Command.LoadFromFolder path =>
    let pl : Playlist := { tracks := env.fromDir path }
    let r := Playlist.load env pl 0
    match r.2 with
    | some _ => StepResult.panicked "Could not load first item" [] r.1
    | none => StepResult.ok { p with loaded := true, playlist := pl } [] r.1
  | Command.LoadFolder =>
    match env.pickFolder with
    | none => StepResult.ok p [] []
    | some path =>
      let pl : Playlist := { tracks := env.fromDir path }
      let r := Playlist.load env pl 0
      match r.2 with
      | some _ => StepResult.panicked "Could not load first item" [] r.1
      | none => StepResult.ok { p with loaded := true, playlist := pl } [] r.1
  | Command.LoadSavedPlaylists =>
    StepResult.ok { p with saved_playlists := env.savedLoad }
      [Response.SavedPlaylists env.savedLoad] []
  | Command.WriteSavedPlaylists =>
    match env.saveRes with
    | some _ => StepResult.panicked "Could not save to file" [] []
    | none => StepResult.ok p [] []
  | Command.AddSavedPlaylist spl =>
    StepResult.ok
      { p with saved_playlists := { playlists := p.saved_playlists.playlists ++ [spl] } }
      [] []
  | Command.Seek time =>
    if p.playing then
      match env.seekRes with
      | some _ => StepResult.panicked "Could not seek" [] [BCall.seek time]
      | none => StepResult.ok p [] [BCall.seek time]
    else
      StepResult.ok p [] []

/-- The position poll at the tail of each `Player::run` iteration: emit
`Position(curr_pos)` and store it, but only when it differs from the
stored `position`. -/
def Player.pollPosition (p : Player) (curr_pos : Nat) : Player × List Response :=
  if p.position ≠ curr_pos then
    ({ p with position := curr_pos }, [Response.Position curr_pos])
  else
    (p, [])

/-- Concrete tracks used by the concrete scenarios below. -/
def trackA : Track := { uri := "a.mp3", title := "A" }

def trackB : Track := { uri := "b.mp3", title := "B" }

def trackC : Track := { uri := "c.mp3", title := "C" }

/-- An environment in which every backend call succeeds. -/
def okEnv : BackendEnv :=
  { loadRes := fun _ => none
    playRes := none
    pauseRes := none
    stopRes := none
    seekRes := none
    setVolumeRes := none
    fromDir := fun _ => [trackA]
    pickFolder := none
    savedLoad := { playlists := [] }
    saveRes := none
    monitor := none
    getPosition := 0 }

def failStopEnv : BackendEnv := { okEnv with stopRes := some "stop failed" }

def failLoadEnv : BackendEnv := { okEnv with loadRes := fun _ => some "load failed" }

def failSeekEnv : BackendEnv := { okEnv with seekRes := some "seek failed" }

def failVolEnv : BackendEnv := { okEnv with setVolumeRes := some "volume failed" }

/-- A player with a loaded three-track playlist, cursor at track 0. -/
def player3 : Player :=
  { Player.new { tracks := [trackA, trackB, trackC] } with loaded := true }

/-- `player3` navigated to the last track. -/
def player3At2 : Player := { player3 with current_index := 2 }

/-- A currently-playing player. -/
def playingPlayer : Player := { player3 with playing := true }

/-- A player with an empty playlist, as built by `Player::new`. -/
def emptyPlayer : Player := Player.new { tracks := [] }

/-- The player state after `player3At2` processes `LoadFromFolder` over a
one-track folder: the new playlist is swapped in, `loaded` is set, but the
stale `current_index = 2` is kept. -/
def stalePlayer : Player :=
  { player3At2 with loaded := true, playlist := { tracks := [trackA] } }

/-- Helper: processing `Play` with an empty playlist is a silent no-op
(the whole arm is guarded by `!tracks.is_empty()`). -/
theorem step_play_empty (env : BackendEnv) (p : Player)
    (h : p.playlist.tracks = []) :
    p.step env Command.Play = StepResult.ok p [] [] := by
  simp [Player.step, h]

/-- Helper: `play_next` never changes the `loaded` flag. -/
theorem play_next_player_loaded (env : BackendEnv) (p : Player) :
    (p.play_next env).player.loaded = p.loaded := by
  unfold Player.play_next
  by_cases h : p.current_index + 1 < p.playlist.tracks.length
  · simp only [h, if_true]
    split <;> rfl
  · simp [h]

/-- Helper: `play_previous` never changes the `loaded` flag. -/
theorem play_previous_player_loaded (env : BackendEnv) (p : Player) :
    (p.play_previous env).player.loaded = p.loaded := by
  unfold Player.play_previous
  by_cases h : p.current_index > 0
  · simp only [h, if_true]
    split <;> rfl
  · simp [h]

/-- Helper: `play_id` never changes the `loaded` flag. -/
theorem play_id_player_loaded (env : BackendEnv) (p : Player) (id : Nat) :
    (p.play_id env id).player.loaded = p.loaded := by
  unfold Player.play_id
  cases h : p.playlist.tracks[id]? with
  | none => simp [h]
  | some t => cases hl : env.loadRes t.uri <;> simp [h, hl]

/-- Helper: `play_next` never changes the stored `volume`. -/
theorem play_next_player_volume (env : BackendEnv) (p : Player) :
    (p.play_next env).player.volume = p.volume := by
  unfold Player.play_next
  by_cases h : p.current_index + 1 < p.playlist.tracks.length
  · simp only [h, if_true]
    split <;> rfl
  · simp [h]

/-- Helper: `play_previous` never changes the stored `volume`. -/
theorem play_previous_player_volume (env : BackendEnv) (p : Player) :
    (p.play_previous env).player.volume = p.volume := by
  unfold Player.play_previous
  by_cases h : p.current_index > 0
  · simp only [h, if_true]
    split <;> rfl
  · simp [h]

/-- Helper: `play_id` never changes the stored `volume`. -/
theorem play_id_player_volume (env : BackendEnv) (p : Player) (id : Nat) :
    (p.play_id env id).player.volume = p.volume := by
  unfold Player.play_id
  cases h : p.playlist.tracks[id]? with
  | none => simp [h]
  | some t => cases hl : env.loadRes t.uri <;> simp [h, hl]

/-- Helper: when every `backend.load` succeeds, `play_next` ends in the
`ok` outcome (the in-range branch loads an existing track, the boundary
branch is a no-op). -/
theorem play_next_ok (env : BackendEnv) (p : Player)
    (hload : ∀ u, env.loadRes u = none) :
    (p.play_next env).outcome = LoadOutcome.ok := by
  unfold Player.play_next
  by_cases h : p.current_index + 1 < p.playlist.tracks.length
  · have ht : p.playlist.tracks.get? (p.current_index + 1)
        = some (p.playlist.tracks.get ⟨p.current_index + 1, h⟩) :=
      List.get?_eq_get h
    simp [h, Playlist.load, ht, hload]
  · simp [h]

/-- Helper: when every `backend.load` succeeds and `current_index` is in
range, `play_previous` ends in the `ok` outcome. -/
theorem play_previous_ok (env : BackendEnv) (p : Player)
    (hload : ∀ u, env.loadRes u = none)
    (hcur : p.current_index < p.playlist.tracks.length) :
    (p.play_previous env).outcome = LoadOutcome.ok := by
  unfold Player.play_previous
  by_cases h : p.current_index > 0
  · have hlt : p.current_index - 1 < p.playlist.tracks.length :=
      lt_of_le_of_lt (Nat.sub_le _ _) hcur
    have ht : p.playlist.tracks[p.current_index - 1]?
        = some (p.playlist.tracks[p.current_index - 1]) :=
      List.getElem?_eq_getElem hlt
    simp [h, Playlist.load, ht, hload]
  · simp [h]

/-- Helper: when every `backend.load` succeeds and `i` is in range,
`play_id` ends in the `ok` outcome. -/
theorem play_id_ok (env : BackendEnv) (p : Player) (i : Nat)
    (hload : ∀ u, env.loadRes u = none)
    (hi : i < p.playlist.tracks.length) :
    (p.play_id env i).outcome = LoadOutcome.ok := by
  unfold Player.play_id
  have ht : p.playlist.tracks[i]? = some (p.playlist.tracks[i]) :=
    List.getElem?_eq_getElem hi
  simp [ht, hload]

/-- C1: on a loaded player, a failing backend call inside Next, Previous,
PlayById, Seek, SetVolume or LoadFromFolder makes the processing panic
(the `.expect` fires), aborting the event loop with no `Response::Error`
emitted — the failure is not caught and converted as the claim states. -/
theorem backend_failure_panics_event_loop :
    player3.step failStopEnv Command.Next
      = StepResult.panicked "Could not stop" [] [BCall.stop]
    ∧ player3.step failStopEnv Command.Previous
      = StepResult.panicked "Could not stop" [] [BCall.stop]
    ∧ player3.step failStopEnv (Command.PlayId 1)
      = StepResult.panicked "Could not stop" [] [BCall.stop]
    ∧ playingPlayer.step failSeekEnv (Command.Seek 5)
      = StepResult.panicked "Could not seek" [] [BCall.seek 5]
    ∧ (player3.step failVolEnv (Command.Volume ((3 : ℚ) / 4))).isPanic = true
    ∧ (player3.step failLoadEnv (Command.LoadFromFolder "d")).isPanic = true
    ∧ (player3.step failStopEnv Command.Next).out = [] :=
  ⟨rfl, rfl, rfl, rfl, rfl, rfl, rfl⟩

/-- C2: issuing `PlayId 5` on a loaded 3-track playlist panics on the
out-of-bounds index `tracks[5]`, after `current_index` has already been
overwritten with 5 — it is not rejected with an `Error` response. -/
theorem play_id_out_of_range_panics :
    player3.playlist.tracks.length = 3
    ∧ player3.current_index = 0
    ∧ (player3.play_id okEnv 5).player.current_index = 5
    ∧ (player3.play_id okEnv 5).outcome = LoadOutcome.panicked "index out of bounds"
    ∧ player3.step okEnv (Command.PlayId 5)
      = StepResult.panicked "index out of bounds" [] [BCall.stop] :=
  ⟨rfl, rfl, rfl, rfl, rfl⟩

/-- C3: when the load inside a navigation helper fails, `current_index`
has already been mutated and is not restored: `play_next` from index 0
leaves index 1 behind, `play_previous` from index 2 leaves index 1, and
`play_id 2` leaves index 2, all while reporting the load error. -/
theorem failed_load_advances_current_index :
    player3.current_index = 0
    ∧ (player3.play_next failLoadEnv).outcome = LoadOutcome.err "load failed"
    ∧ (player3.play_next failLoadEnv).player.current_index = 1
    ∧ player3At2.current_index = 2
    ∧ (player3At2.play_previous failLoadEnv).outcome = LoadOutcome.err "load failed"
    ∧ (player3At2.play_previous failLoadEnv).player.current_index = 1
    ∧ (player3.play_id failLoadEnv 2).outcome = LoadOutcome.err "load failed"
    ∧ (player3.play_id failLoadEnv 2).player.current_index = 2 :=
  ⟨rfl, rfl, rfl, rfl, rfl, rfl, rfl, rfl⟩

/-- C4: on the loaded 3-track player at the last index (`current_index =
len - 1 = 2`), `Next` performs no wraparound and leaves `current_index`
unchanged, but it is not a silent no-op: the arm still calls
`backend.stop` and `backend.play` again on the current track (and
`set_volume`) and emits `StateChanged(Playing)`. -/
theorem next_at_last_index_replays_track :
    player3At2.current_index + 1 = player3At2.playlist.tracks.length
    ∧ player3At2.step okEnv Command.Next
      = StepResult.ok { player3At2 with playing := true }
          [Response.StateChanged State.Playing]
          [BCall.stop, BCall.play, BCall.set_volume player3At2.volume]
    ∧ ({ player3At2 with playing := true }).current_index = player3At2.current_index
    ∧ BCall.stop ∈ (player3At2.step okEnv Command.Next).calls
    ∧ BCall.play ∈ (player3At2.step okEnv Command.Next).calls
    ∧ (player3At2.step okEnv Command.Next).out ≠ [] := by
  refine ⟨rfl, rfl, rfl, ?_, ?_, ?_⟩ <;> decide

/-- C5 counterexample: processing `Play` on the freshly-built player with
an empty playlist emits no response at all — in particular not the
`Error "Playlist is not loaded."` the claim requires — because the whole
arm is guarded by `!tracks.is_empty()`. -/
theorem play_on_empty_playlist_emits_nothing :
    emptyPlayer.step okEnv Command.Play = StepResult.ok emptyPlayer [] []
    ∧ Response.Error "Playlist is not loaded." ∉ (emptyPlayer.step okEnv Command.Play).out
    ∧ (emptyPlayer.step okEnv Command.Play).out = [] := by
  refine ⟨rfl, ?_, rfl⟩
  decide

/-- C5 amended: for every player whose playlist is empty, processing
`Play` is a silent no-op — no response is emitted (in particular no
`Error`), no backend call is made, and the state (hence `playing`) is
unchanged. -/
theorem play_on_empty_playlist_silent (env : BackendEnv) (p : Player)
    (h : p.playlist.tracks = []) :
    p.step env Command.Play = StepResult.ok p [] [] :=
  step_play_empty env p h

/-- C5 amended witness: the empty player. -/
theorem play_on_empty_playlist_silent_witness :
    emptyPlayer.step okEnv Command.Play = StepResult.ok emptyPlayer [] [] :=
  play_on_empty_playlist_silent okEnv emptyPlayer rfl

/-- C6: for every player whose playlist has length 0, processing `Play`
mutates no state: any `ok` outcome of the step returns the very same
player (so `playing` keeps its value) and emits no `StateChanged`. -/
theorem play_len_zero_no_mutation (env : BackendEnv) (p : Player)
    (h : p.playlist.tracks.length = 0) :
    ∀ p' out calls, p.step env Command.Play = StepResult.ok p' out calls →
      p' = p ∧ (∀ s, Response.StateChanged s ∉ out) ∧ p'.playing = p.playing := by
  intro p' out calls hstep
  rw [step_play_empty env p (List.length_eq_zero.mp h)] at hstep
  cases hstep
  simp

/-- C6 witness: the empty player. -/
theorem play_len_zero_no_mutation_witness :
    emptyPlayer = emptyPlayer
    ∧ (∀ s, Response.StateChanged s ∉ ([] : List Response))
    ∧ emptyPlayer.playing = emptyPlayer.playing :=
  play_len_zero_no_mutation okEnv emptyPlayer rfl emptyPlayer [] [] rfl

/-- C7: with a stored volume `p.volume`, a loaded playlist and succeeding
backend calls, each of Next, Previous and PlayById ends its backend-call
sequence with `play` immediately followed by `set_volume p.volume`: the
stored volume is reapplied to the backend right after the track change's
`play`. -/
theorem volume_reapplied_after_track_change (env : BackendEnv) (p : Player) (i : Nat)
    (hl : p.loaded = true)
    (hcur : p.current_index < p.playlist.tracks.length)
    (hi : i < p.playlist.tracks.length)
    (hstop : env.stopRes = none) (hplay : env.playRes = none)
    (hvol : env.setVolumeRes = none)
    (hload : ∀ u, env.loadRes u = none) :
    (∃ c, (p.step env Command.Next).calls
        = c ++ [BCall.play, BCall.set_volume p.volume])
    ∧ (∃ c, (p.step env Command.Previous).calls
        = c ++ [BCall.play, BCall.set_volume p.volume])
    ∧ (∃ c, (p.step env (Command.PlayId i)).calls
        = c ++ [BCall.play, BCall.set_volume p.volume]) := by
  refine ⟨⟨BCall.stop :: (p.play_next env).calls, ?_⟩,
    ⟨BCall.stop :: (p.play_previous env).calls, ?_⟩,
    ⟨BCall.stop :: (p.play_id env i).calls, ?_⟩⟩
  · simp [Player.step, hl, hstop, hplay, hvol, play_next_ok env p hload,
      play_next_player_volume, StepResult.calls]
  · simp [Player.step, hl, hstop, hplay, hvol, play_previous_ok env p hload hcur,
      play_previous_player_volume, StepResult.calls]
  · simp [Player.step, hl, hstop, hplay, hvol, play_id_ok env p i hload hi,
      play_id_player_volume, StepResult.calls]

/-- C7 witness: the three-track player at index 0, `PlayId 1`. -/
theorem volume_reapplied_after_track_change_witness :
    (∃ c, (player3.step okEnv Command.Next).calls
        = c ++ [BCall.play, BCall.set_volume player3.volume])
    ∧ (∃ c, (player3.step okEnv Command.Previous).calls
        = c ++ [BCall.play, BCall.set_volume player3.volume])
    ∧ (∃ c, (player3.step okEnv (Command.PlayId 1)).calls
        = c ++ [BCall.play, BCall.set_volume player3.volume]) :=
  volume_reapplied_after_track_change okEnv player3 1
    rfl (by decide) (by decide) rfl rfl rfl (fun _ => rfl)

/-- C8: the position poll is edge-triggered: it emits `Position curr`
exactly when the polled position differs from the stored one (and nothing
else), and afterwards the stored position equals the polled value. -/
theorem position_poll_edge_triggered (p : Player) (curr : Nat) :
    (p.pollPosition curr).1.position = curr
    ∧ (∀ x, Response.Position x ∈ (p.pollPosition curr).2
        ↔ (curr ≠ p.position ∧ x = curr))
    ∧ ((p.pollPosition curr).2 = [] ↔ curr = p.position) := by
  unfold Player.pollPosition
  by_cases h : p.position = curr
  · subst h
    simp
  · simp [h, Ne.symm h]

/-- C9: `playing ⇒ loaded` is an invariant: it holds of the initial state
built by `Player::new`, and any command whose processing completes
without panicking preserves it. -/
theorem playing_implies_loaded_invariant :
    (∀ pl, (Player.new pl).playing = true → (Player.new pl).loaded = true)
    ∧ (∀ (env : BackendEnv) (p : Player) (c : Command) (p' : Player)
        (out : List Response) (calls : List BCall),
        (p.playing = true → p.loaded = true) →
        p.step env c = StepResult.ok p' out calls →
        (p'.playing = true → p'.loaded = true)) := by
  constructor
  · intro pl h
    simp [Player.new] at h
  · intro env p c p' out calls hinv hstep hp'
    cases c <;> simp only [Player.step] at hstep <;>
      (repeat' split at hstep) <;> cases hstep <;>
      simp_all [play_next_player_loaded, play_previous_player_loaded,
        play_id_player_loaded]

/-- C9 witness: instantiated at the initial empty player processing
`Play`. -/
theorem playing_implies_loaded_invariant_witness :
    emptyPlayer.playing = true → emptyPlayer.loaded = true :=
  playing_implies_loaded_invariant.2 okEnv emptyPlayer Command.Play
    emptyPlayer [] [] (by decide) rfl

/-- C10: `LoadFromFolder` swaps in the new playlist and sets `loaded`,
but keeps the previous `current_index`; concretely, loading a one-track
folder while `current_index = 2` yields `stalePlayer`, on which a
subsequent `GetMeta` reads `tracks[2]` of the one-track playlist and
panics out of bounds. -/
theorem load_from_folder_keeps_stale_index :
    (∀ (env : BackendEnv) (p : Player) (path : String),
      (Playlist.load env { tracks := env.fromDir path } 0).2 = none →
      p.step env (Command.LoadFromFolder path)
        = StepResult.ok
            { p with loaded := true, playlist := { tracks := env.fromDir path } }
            [] (Playlist.load env { tracks := env.fromDir path } 0).1)
    ∧ player3At2.step okEnv (Command.LoadFromFolder "d")
      = StepResult.ok stalePlayer [] [BCall.load "a.mp3"]
    ∧ stalePlayer.current_index = 2
    ∧ stalePlayer.playlist.tracks.length = 1
    ∧ stalePlayer.step okEnv Command.GetMeta
      = StepResult.panicked "index out of bounds" [] [] := by
  refine ⟨?_, rfl, rfl, rfl, rfl⟩
  intro env p path h
  simp [Player.step, h]

/-- C10 witness: the three-track player at index 0 loading a folder. -/
theorem load_from_folder_keeps_stale_index_witness :
    player3.step okEnv (Command.LoadFromFolder "dir")
      = StepResult.ok
          { player3 with loaded := true, playlist := { tracks := [trackA] } }
          [] [BCall.load "a.mp3"] :=
  load_from_folder_keeps_stale_index.1 okEnv player3 "dir" rfl

end Reyvr
